import Mathlib

/-!
Verification development for the scanner-service repository.

This file shallowly embeds the parts of the repository that the spec's
testable claims are about:

* `src/playmcp/dist/controllers/playwright.js` — the browser driver facade
  (`PlaywrightController`): session state (browser / context / page / debug),
  the process-wide mouse position, and the operations `openBrowser`,
  `closeBrowser`, `navigate`, `click`, `moveMouse`, `getPageTitle`.
  External browser effects (launching, page clicks, titles, ...) are
  supplied by an oracle structure `PWWorld` giving the outcome of each
  underlying Playwright call; each operation also returns the list of
  external actions it actually performed, so theorems can state that an
  operation did or did not touch the browser.

* `src/playmcp/dist/server.js` — the `callTool` request handler: the 38-case
  switch over tool names, argument validation, and the catch-all that wraps
  thrown `BrowserError`s into error payloads.  The six tool cases the
  claims are about are translated in full; the remaining cases are
  delegated to an explicit parameter (`other`), universally quantified in
  every theorem, so no theorem depends on their behaviour.

* `src/unnamed/part_003` — the line-delimited JSON dispatcher (`Server`):
  `handleInput` with its MCP method branches, legacy bare-command branch
  and catch block, and the event-loop semantics of `connect`'s
  fire-and-forget line loop.

* `src/server/services/enhanced-targeted-scanner.ts` — the
  `generateAIInsights` / `setDefaultInsights` pair of the deep scanner.

JavaScript values that flow through the dispatcher untyped are modelled by
`JVal`; `undefined` is modelled by `Option` (`none` = absent/undefined).
-/

namespace ScannerService

/-- Values of decoded JSON / JavaScript, as far as the dispatcher inspects
them.  `undefined` is represented externally by `Option JVal`. -/
inductive JVal where
  | null : JVal
  | bool (b : Bool) : JVal
  | num (n : Int) : JVal
  | str (s : String) : JVal
  | arr (elems : List JVal) : JVal
  | obj (fields : List (String × JVal)) : JVal

/-- JavaScript truthiness of a defined value (`if (v)` in the source). -/
def JVal.truthy : JVal → Bool
  | .null => false
  | .bool b => b
  | .num n => n != 0
  | .str s => s != ""
  | .arr _ => true
  | .obj _ => true

/-- Truthiness of a possibly-undefined value (`if (x.f)` where `f` may be
absent). -/
def truthyOpt : Option JVal → Bool
  | none => false
  | some v => v.truthy

/-- Rendering of a defined value inside a template literal (used by the
source only for the "Unknown tool" message). -/
def JVal.text : JVal → String
  | .null => "null"
  | .bool b => if b then "true" else "false"
  | .num n => toString n
  | .str s => s
  | .arr _ => ""
  | .obj _ => "[object Object]"

/-- Template-literal rendering of a possibly-undefined value. -/
def jvalTextOpt : Option JVal → String
  | none => "undefined"
  | some v => v.text

/-- An argument object: named JSON values (`request.params.arguments`). -/
def Args := List (String × JVal)

/-- Lookup of a property of an argument object; `none` is `undefined`. -/
def Args.get (a : Args) (k : String) : Option JVal :=
  (List.lookup k a)

/-- One content block of a tool response (`{type: "text", text: ...}`,
src/playmcp/dist/types/index.js `ToolResponse`). -/
structure ContentBlock where
  type : String
  text : String
deriving DecidableEq, Repr

/-- A tool response: content blocks plus the optional `isError` flag
(absent = `false`). -/
structure ToolResponse where
  content : List ContentBlock
  isError : Bool := false
deriving DecidableEq, Repr

/-- The `BrowserError` class of src/playmcp/dist/types/index.js: a message
plus an optional remediation suggestion. -/
structure BError where
  message : String
  suggestion : Option String
deriving DecidableEq, Repr

/-! ## Browser driver facade (src/playmcp/dist/controllers/playwright.js) -/

/-- A handle to a launched browser; `connected` models
`browser.isConnected()`. -/
structure BrowserHandle where
  connected : Bool
deriving DecidableEq, Repr

/-- The controller's mutable state: the `this.state` record
(browser/context/page/debug, constructor lines 4-11) together with the
separate `this.currentMousePosition` field. -/
structure CtrlState where
  browser : Option BrowserHandle
  context : Option Unit
  page : Option Unit
  debug : Bool
  mouseX : Int
  mouseY : Int
deriving DecidableEq, Repr

/-- The controller state at process start (constructor). -/
def CtrlState.initial : CtrlState :=
  { browser := none, context := none, page := none, debug := false
    mouseX := 0, mouseY := 0 }

/-- External browser actions a controller operation can perform, recorded
so theorems can assert what was (not) done. -/
inductive Action where
  | launch
  | newContext
  | newPage
  | pageClose
  | contextClose
  | browserClose
  | goto (url : String)
  | pageClick (selector : JVal)
  | mouseClickAt (x y : Int)
  | mouseMoveAt (x y : Int)
  | pageTitle

/-- Oracle for the outcomes of the underlying Playwright calls.  Each field
is the result the external library would produce if the corresponding call
is made (`Except.error m` = the call rejects with message `m`). -/
structure PWWorld where
  launch : Except String BrowserHandle
  newContext : Except String Unit
  newPage : Except String Unit
  pageClose : Except String Unit
  contextClose : Except String Unit
  browserClose : Except String Unit
  gotoResult : Except String Unit
  clickSel : JVal → Except String Unit
  clickAt : Int → Int → Except String Unit
  mouseMoveAt : Int → Int → Except String Unit
  title : Except String String

/-- Result of one controller operation: the state after it, the external
actions performed, and either a return value or the thrown error. -/
def CtrlResult (α : Type) := CtrlState × List Action × Except BError α

/-- The `isInitialized` method (playwright.js lines 848-850):
`this.state.browser?.isConnected() && this.state.context &&
this.state.page`. -/
def isInitialized (s : CtrlState) : Bool :=
  (match s.browser with
   | some b => b.connected
   | none => false)
  && s.context.isSome && s.page.isSome

/-- The `openBrowser` method (playwright.js lines 21-46).  Sets
`state.debug` first; if the browser is already connected it returns
immediately; otherwise it runs launch → newContext → newPage, assigning
each into the state as it goes; any step's failure is caught and rethrown
as `BrowserError('Failed to launch browser', ...)`, leaving the partial
assignments in place. -/
def openBrowser (s : CtrlState) (_headless debug : Bool) (w : PWWorld) :
    CtrlResult Unit :=
  let s0 : CtrlState := { s with debug := debug }
  if (match s0.browser with | some b => b.connected | none => false) then
    (s0, [], .ok ())
  else
    match w.launch with
    | .error e =>
        (s0, [.launch],
         .error ⟨"Failed to launch browser",
                 some ("Technical details: " ++ (if e = "" then "Unknown error" else e))⟩)
    | .ok b =>
      let s1 : CtrlState := { s0 with browser := some b }
      match w.newContext with
      | .error e =>
          (s1, [.launch, .newContext],
           .error ⟨"Failed to launch browser",
                   some ("Technical details: " ++ (if e = "" then "Unknown error" else e))⟩)
      | .ok _ =>
        let s2 : CtrlState := { s1 with context := some () }
        match w.newPage with
        | .error e =>
            (s2, [.launch, .newContext, .newPage],
             .error ⟨"Failed to launch browser",
                     some ("Technical details: " ++ (if e = "" then "Unknown error" else e))⟩)
        | .ok _ =>
            ({ s2 with page := some () }, [.launch, .newContext, .newPage], .ok ())

/-- The `closeBrowser` method (playwright.js lines 47-60).  Runs
`page?.close()`, `context?.close()`, `browser?.close()` in that order
(a `?.` call is skipped when the component is null); the first failure is
caught and rethrown as `BrowserError('Failed to close browser', ...)`
with no state change; only when all three succeed is `this.state` reset to
all-null with `debug := false` (the mouse position is a separate field and
is not reset). -/
def closeBrowser (s : CtrlState) (w : PWWorld) : CtrlResult Unit :=
  let closeErr : BError :=
    ⟨"Failed to close browser", some "The browser might have already been closed"⟩
  let a1 : List Action := if s.page.isSome then [.pageClose] else []
  match (if s.page.isSome then w.pageClose else .ok ()) with
  | .error _ => (s, a1, .error closeErr)
  | .ok _ =>
    let a2 : List Action := a1 ++ (if s.context.isSome then [.contextClose] else [])
    match (if s.context.isSome then w.contextClose else .ok ()) with
    | .error _ => (s, a2, .error closeErr)
    | .ok _ =>
      let a3 : List Action := a2 ++ (if s.browser.isSome then [.browserClose] else [])
      match (if s.browser.isSome then w.browserClose else .ok ()) with
      | .error _ => (s, a3, .error closeErr)
      | .ok _ =>
          ({ s with browser := none, context := none, page := none, debug := false },
           a3, .ok ())

/-- Body of `navigate` (playwright.js lines 61-74) before its catch:
throws `Error('Browser not initialized')` when uninitialized, else
performs `page.goto(url)`. -/
def navigateBody (s : CtrlState) (url : String) (w : PWWorld) :
    CtrlState × List Action × Except String Unit :=
  if !isInitialized s then (s, [], .error "Browser not initialized")
  else
    match w.gotoResult with
    | .error e => (s, [.goto url], .error e)
    | .ok _ => (s, [.goto url], .ok ())

/-- The `navigate` method: wraps any body failure into
`BrowserError('Failed to navigate', ...)`. -/
def navigate (s : CtrlState) (url : String) (w : PWWorld) : CtrlResult Unit :=
  match navigateBody s url w with
  | (s1, as, .ok _) => (s1, as, .ok ())
  | (s1, as, .error _) =>
      (s1, as, .error ⟨"Failed to navigate", some "Check if the URL is valid and accessible"⟩)

/-- Body of `click` (playwright.js lines 103-122) before its catch: throws
`Error('Browser not initialized')` when uninitialized or the page is null;
with a truthy selector it clicks that element, otherwise it clicks at
`this.currentMousePosition`. -/
def clickBody (s : CtrlState) (selector : Option JVal) (w : PWWorld) :
    CtrlState × List Action × Except String Unit :=
  if !isInitialized s || !s.page.isSome then (s, [], .error "Browser not initialized")
  else
    match selector with
    | some sel =>
      if sel.truthy then
        match w.clickSel sel with
        | .error e => (s, [.pageClick sel], .error e)
        | .ok _ => (s, [.pageClick sel], .ok ())
      else
        match w.clickAt s.mouseX s.mouseY with
        | .error e => (s, [.mouseClickAt s.mouseX s.mouseY], .error e)
        | .ok _ => (s, [.mouseClickAt s.mouseX s.mouseY], .ok ())
    | none =>
      match w.clickAt s.mouseX s.mouseY with
      | .error e => (s, [.mouseClickAt s.mouseX s.mouseY], .error e)
      | .ok _ => (s, [.mouseClickAt s.mouseX s.mouseY], .ok ())

/-- The `click` method: wraps any body failure into
`BrowserError('Failed to click', ...)`, choosing the suggestion by the
truthiness of the selector argument, exactly as the source's
`selector ? ... : ...`. -/
def click (s : CtrlState) (selector : Option JVal) (w : PWWorld) : CtrlResult Unit :=
  match clickBody s selector w with
  | (s1, as, .ok _) => (s1, as, .ok ())
  | (s1, as, .error _) =>
      (s1, as,
       .error ⟨"Failed to click",
               some (if truthyOpt selector then "Check if the element exists and is visible"
                     else "Check if mouse position is valid")⟩)

/-- Body of `moveMouse` (playwright.js lines 137-151) before its catch:
throws `Error('Browser not initialized')` when uninitialized, else moves
the mouse and then records the new `currentMousePosition`. -/
def moveMouseBody (s : CtrlState) (x y : Int) (w : PWWorld) :
    CtrlState × List Action × Except String Unit :=
  if !isInitialized s then (s, [], .error "Browser not initialized")
  else
    match w.mouseMoveAt x y with
    | .error e => (s, [.mouseMoveAt x y], .error e)
    | .ok _ => ({ s with mouseX := x, mouseY := y }, [.mouseMoveAt x y], .ok ())

/-- The `moveMouse` method: wraps any body failure into
`BrowserError('Failed to move mouse', ...)`. -/
def moveMouse (s : CtrlState) (x y : Int) (w : PWWorld) : CtrlResult Unit :=
  match moveMouseBody s x y w with
  | (s1, as, .ok _) => (s1, as, .ok ())
  | (s1, as, .error _) =>
      (s1, as, .error ⟨"Failed to move mouse", some "Check if coordinates are within viewport"⟩)

/-- Body of `getPageTitle` (playwright.js lines 269-283) before its catch:
throws `Error('Browser not initialized')` when uninitialized, else reads
`page.title()` (returning `title || ''`, which is the title itself since a
resolved title is a string). -/
def getPageTitleBody (s : CtrlState) (w : PWWorld) :
    CtrlState × List Action × Except String String :=
  if !isInitialized s then (s, [], .error "Browser not initialized")
  else
    match w.title with
    | .error e => (s, [.pageTitle], .error e)
    | .ok t => (s, [.pageTitle], .ok t)

/-- The `getPageTitle` method: wraps any body failure into
`BrowserError('Failed to get page title', ...)`. -/
def getPageTitle (s : CtrlState) (w : PWWorld) : CtrlResult String :=
  match getPageTitleBody s w with
  | (s1, as, .ok t) => (s1, as, .ok t)
  | (s1, as, .error _) =>
      (s1, as, .error ⟨"Failed to get page title", some "Check if the page is loaded"⟩)

/-! ## Tool dispatch (src/playmcp/dist/server.js) -/

/-- The keys of the `tools` registry object (server.js lines 474-513).
They coincide with the case labels of the `callTool` switch. -/
def registryNames : List String :=
  ["openBrowser", "navigate", "type", "click", "moveMouse", "scroll",
   "screenshot", "getPageSource", "getPageText", "getPageTitle", "getPageUrl",
   "getScripts", "getStylesheets", "getMetaTags", "getLinks", "getImages",
   "getForms", "getElementContent", "getElementHierarchy", "executeJavaScript",
   "goForward", "hover", "dragAndDrop", "selectOption", "pressKey",
   "waitForText", "waitForSelector", "resize", "handleDialog",
   "getConsoleMessages", "getNetworkRequests", "uploadFiles",
   "evaluateWithReturn", "takeScreenshot", "mouseMove", "mouseClick",
   "mouseDrag", "closeBrowser"]

/-- The tool names whose switch cases this file translates in full (the
ones the claims are about). -/
def detailedNames : List String :=
  ["openBrowser", "navigate", "click", "moveMouse", "getPageTitle", "closeBrowser"]

/-- The error text of the catch-all at the bottom of the `callTool`
handler (server.js lines 917-925):
`Error: message` plus `\nSuggestion: ...` when the suggestion is truthy. -/
def errText (e : BError) : String :=
  "Error: " ++ e.message ++
    (match e.suggestion with
     | some sug => if sug = "" then "" else "\nSuggestion: " ++ sug
     | none => "")

/-- Wrapping of a thrown `BrowserError` into an error payload by the
handler's catch-all. -/
def errResp (e : BError) : ToolResponse :=
  { content := [⟨"text", errText e⟩], isError := true }

/-- A success payload with a single text block. -/
def textResp (t : String) : ToolResponse :=
  { content := [⟨"text", t⟩] }

/-- The boolean actually passed for `args.headless` / `args.debug`
(`openBrowser(headless = false, debug = false)` defaults an absent
argument to `false`; a present value is used for its truthiness). -/
def boolArg (a : Args) (k : String) : Bool :=
  truthyOpt (a.get k)

/-- Behaviour of the 32 switch cases this file does not translate in
detail: the post-state, the actions performed, and either the returned
response or the thrown `BrowserError`.  Theorems quantify over it. -/
def OtherCases : Type :=
  String → Args → CtrlState → PWWorld → CtrlState × List Action × Except BError ToolResponse

/-- Outcome of one `callTool` dispatch: post-state, actions, response.
The handler never rejects — its catch-all converts every thrown error
into an error payload. -/
def DispatchResult : Type := CtrlState × List Action × ToolResponse

/-- Lift a controller result whose success response is a fixed text. -/
def wrapUnit (r : CtrlResult Unit) (okText : String) : DispatchResult :=
  match r with
  | (s1, as, .ok _) => (s1, as, textResp okText)
  | (s1, as, .error e) => (s1, as, errResp e)

/-- The `callTool` request handler registered in server.js (lines
525-926): destructures `name` and `arguments` (defaulting to `{}`),
switches on the tool name, validates declared-required arguments, invokes
the controller, and wraps results / thrown errors into a `ToolResponse`.
The six claim-relevant cases are translated in full; every other
registered name is delegated to `other`; any unmatched name falls to the
default case `Unknown tool: name`. -/
def callTool (other : OtherCases) (w : PWWorld) (s : CtrlState)
    (name : Option JVal) (args : Args) : DispatchResult :=
  match name with
  | some (JVal.str n) =>
    if n = "openBrowser" then
      wrapUnit (openBrowser s (boolArg args "headless") (boolArg args "debug") w)
        "Browser opened successfully"
    else if n = "navigate" then
      match args.get "url" with
      | some (JVal.str u) =>
        if u = "" then (s, [], { content := [⟨"text", "URL is required"⟩], isError := true })
        else wrapUnit (navigate s u w) "Navigation successful"
      | _ => (s, [], { content := [⟨"text", "URL is required"⟩], isError := true })
    else if n = "click" then
      if !truthyOpt (args.get "selector") then
        (s, [], { content := [⟨"text", "Selector is required"⟩], isError := true })
      else wrapUnit (click s (args.get "selector") w) "Click successful"
    else if n = "moveMouse" then
      match args.get "x", args.get "y" with
      | some (JVal.num x), some (JVal.num y) =>
          wrapUnit (moveMouse s x y w) "Mouse moved successfully"
      | _, _ =>
          (s, [], { content := [⟨"text", "X and Y coordinates are required"⟩], isError := true })
    else if n = "getPageTitle" then
      match getPageTitle s w with
      | (s1, as, .ok t) => (s1, as, textResp t)
      | (s1, as, .error e) => (s1, as, errResp e)
    else if n = "closeBrowser" then
      wrapUnit (closeBrowser s w) "Browser closed successfully"
    else if n ∈ registryNames then
      match other n args s w with
      | (s1, as, .ok resp) => (s1, as, resp)
      | (s1, as, .error e) => (s1, as, errResp e)
    else
      (s, [], { content := [⟨"text", "Unknown tool: " ++ n⟩], isError := true })
  | other? =>
      (s, [], { content := [⟨"text", "Unknown tool: " ++ jvalTextOpt other?⟩], isError := true })

/-! ## Line dispatcher (src/unnamed/part_003, `Server`) -/

/-- The `params` object of a tools/call message
(`message.params.name`, `message.params.arguments`). -/
structure MParams where
  name : Option JVal
  arguments : Option Args

/-- A successfully decoded input message, with exactly the fields
`handleInput` reads: `method`, `id`, `params`, `command`, `arguments`.
An absent field is `none`.  (A non-string `method` behaves like an
unmatched string under the source's `===` comparisons, so `method` is
kept as `Option String`.) -/
structure Message where
  method : Option String
  id : Option JVal
  params : Option MParams
  command : Option JVal
  arguments : Option Args

/-- The argument the dispatcher passes to the registered callTool handler:
`{params: {name, arguments}}`. -/
structure CallReq where
  name : Option JVal
  arguments : Option Args

/-- The dispatcher (`Server` class of part_003): configuration identity,
the capabilities object echoed by `initialize`, and the two registered
handlers.  A handler is `none` when `setRequestHandler` was never called
for it.  The registered handlers of server.js always resolve (the
callTool handler catches everything), so they are modelled as total
functions on values. -/
structure Server where
  name : String
  version : String
  capabilities : JVal
  listToolsHandler : Option JVal
  callToolHandler : Option (CallReq → ToolResponse)

/-- One JSON line written to standard output by `handleInput`, at the
level of the value serialized (serialization itself is external). -/
inductive OutMsg where
  | initResult (id : Option JVal) (protocolVersion : String) (capabilities : JVal)
      (name version : String)
  | listResult (id : Option JVal) (result : JVal)
  | callResult (id : Option JVal) (resp : ToolResponse)
  | legacy (success : Bool) (message : String) (suggestion : Option String)
  | rpcError (id : Option JVal) (code : Int) (message : String) (suggestion : String)

/-- Outcome of `handleInput` on one line: the responses emitted, or
`crash` when an exception escapes `handleInput` itself — since `connect`
invokes `handleInput` without awaiting or catching, `crash` is an
unhandled promise rejection, which terminates a default-configured
Node.js process. -/
inductive HandleOutcome where
  | emits (out : List OutMsg)
  | crash

/-- One raw input line, by what `JSON.parse` does to it: `bad` when the
parse throws (with the parser's error message), `ok` when it yields a
message.  `hasIdSub` records whether the raw text contains the substring
`"id"` (the `input.includes` test of the catch block). -/
inductive InLine where
  | bad (parseMsg : String) (hasIdSub : Bool)
  | ok (msg : Message) (hasIdSub : Bool)

/-- The V8 message of the TypeError thrown by `message.params.name` when
`params` is absent. -/
def typeErrorReadingName : String :=
  "Cannot read properties of undefined (reading 'name')"

/-- The V8 message of the TypeError thrown by `response.content[0].text`
when the content array is empty. -/
def typeErrorReadingText : String :=
  "Cannot read properties of undefined (reading 'text')"

/-- The catch block of `handleInput` (part_003 lines 95-107) for a line
whose initial parse succeeded: re-parsing in the catch then succeeds too,
so the error response carries the message's `id` when the raw text
contains `"id"`, else `null`. -/
def errorOut (msg : Message) (hasIdSub : Bool) (emsg : String) : HandleOutcome :=
  .emits [.rpcError (if hasIdSub then msg.id else none) (-32603) emsg "Check input format"]

/-- The `handleInput` method (part_003 lines 14-108).  Branches in source
order: `initialize`, `notifications/initialized`, `tools/list`,
`tools/call`, then the legacy bare-command branch; anything thrown inside
is caught by the catch block, which computes the response id as
`input.includes('"id"') ? JSON.parse(input).id : null` — so for a line the
initial parse already rejected, a raw text containing `"id"` makes the
catch block itself throw, and the rejection escapes `handleInput`. -/
def handleInput (s : Server) (line : InLine) : HandleOutcome :=
  match line with
  | .bad parseMsg hasIdSub =>
    if hasIdSub then .crash
    else .emits [.rpcError none (-32603) parseMsg "Check input format"]
  | .ok msg hasIdSub =>
    if msg.method = some "initialize" then
      .emits [.initResult msg.id "2024-11-05" s.capabilities s.name s.version]
    else if msg.method = some "notifications/initialized" then
      .emits []
    else if msg.method = some "tools/list" then
      match s.listToolsHandler with
      | none => errorOut msg hasIdSub "No list tools handler registered"
      | some v => .emits [.listResult msg.id v]
    else if msg.method = some "tools/call" then
      match s.callToolHandler with
      | none => errorOut msg hasIdSub "No call tool handler registered"
      | some h =>
        match msg.params with
        | none => errorOut msg hasIdSub typeErrorReadingName
        | some p => .emits [.callResult msg.id (h ⟨p.name, p.arguments⟩)]
    else
      match msg.command with
      | some cv =>
        if cv.truthy then
          match s.callToolHandler with
          | none => errorOut msg hasIdSub "No call tool handler registered"
          | some h =>
            let resp := h ⟨some cv, msg.arguments⟩
            match resp.content with
            | [] => errorOut msg hasIdSub typeErrorReadingText
            | c0 :: rest =>
              if resp.isError then
                .emits [.legacy false c0.text (rest.head?.map ContentBlock.text)]
              else
                .emits [.legacy true c0.text none]
        else .emits []
      | none => .emits []

/-- Processing of one line with the server state threaded through:
`handleInput` assigns to no field of `this` (part_003 lines 14-108), so
the dispatcher state after a line is the state before it. -/
def handleLine (s : Server) (line : InLine) : Server × HandleOutcome :=
  (s, handleInput s line)

/-- Sequential processing of a list of lines, threading the dispatcher
state returned by each `handleLine` into the next. -/
def runLines : Server → List InLine → List HandleOutcome
  | _, [] => []
  | s, line :: rest =>
    let p := handleLine s line
    p.2 :: runLines p.1 rest

/-! ## Event-loop semantics of `connect` (part_003 lines 109-130)

The `data` callback splits the buffered chunk into lines and runs
`for (const line of lines) { this.handleInput(line); }` — `handleInput`
is `async` and is not awaited.  For a tool-invocation line, `handleInput`
runs synchronously up to `await this.callToolHandler(...)` (parsing the
line and invoking the handler: the handler is *started*), suspends there,
and its continuation (serializing and emitting the response) runs only
when the handler's promise resolves.  Under JavaScript's event-loop rules
the whole `for` loop belongs to one synchronous callback, and promise
continuations never run inside it; so all handlers of a chunk are started,
in arrival order, before any continuation emits a response, and responses
are then emitted in handler-completion order, which is not constrained.

The model indexes the chunk's tool-invocation lines by arrival position.
`DStep.start` is the synchronous prefix of one `handleInput` call (the
handler for that line is invoked); it is enabled while lines remain
queued.  `DStep.finish` is the continuation after the `await` (the
response is emitted); it is enabled only once the loop has exhausted the
queue, and may pick any in-flight handler, since completion order depends
on the external browser. -/

/-- Observable events of chunk processing: `start i` = the handler for
line `i` is invoked; `emit i` = the response for line `i` is emitted. -/
inductive Ev where
  | start (i : Nat)
  | emit (i : Nat)
deriving DecidableEq, Repr

/-- State of the `data` callback's processing of one chunk: lines not yet
dispatched, handlers in flight, responses already emitted (in order). -/
structure DState where
  queued : List Nat
  inflight : List Nat
  emitted : List Nat
deriving DecidableEq, Repr

/-- One atomic step of the event loop while processing a chunk. -/
inductive DStep : DState → Ev → DState → Prop where
  | start (i : Nat) (rest inflight emitted : List Nat) :
      DStep ⟨i :: rest, inflight, emitted⟩ (.start i)
        ⟨rest, inflight ++ [i], emitted⟩
  | finish (i : Nat) (pre post emitted : List Nat) :
      DStep ⟨[], pre ++ i :: post, emitted⟩ (.emit i)
        ⟨[], pre ++ post, emitted ++ [i]⟩

/-- Executions of the event loop: reflexive-transitive closure of `DStep`
with the trace of events. -/
inductive DExec : DState → List Ev → DState → Prop where
  | refl (s : DState) : DExec s [] s
  | step {s s1 s2 : DState} {e : Ev} {tr : List Ev} :
      DStep s e s1 → DExec s1 tr s2 → DExec s (e :: tr) s2

/-- The initial state for a chunk carrying two back-to-back
tool-invocation lines. -/
def twoLineChunk : DState := ⟨[0, 1], [], []⟩

/-! ## Deep-scan AI insights (src/server/services/enhanced-targeted-scanner.ts) -/

/-- The `aiInsights` record of a deep-scan result. -/
structure AIInsights where
  toolOverview : String
  teacherBenefits : List String
  commonUseCases : List String
  setupComplexity : String
  bestFeatures : List String
deriving DecidableEq, Repr

/-- The shape `generateAIInsights` probes in the parsed chat-completion
content.  A field is `none` when the JavaScript check for it fails
(absent / falsy for `toolOverview`, not an array for the lists, not one
of easy/medium/complex for `setupComplexity`). -/
structure InsightsJson where
  toolOverview : Option String
  teacherBenefits : Option (List String)
  commonUseCases : Option (List String)
  setupComplexity : Option String
  bestFeatures : Option (List String)

/-- Outcome of the chat-completion call and of decoding its content, as
`generateAIInsights` distinguishes them: the request rejected (network
failure, missing API key, ...); the response had no truthy content
string; the content failed `JSON.parse`; or it parsed. -/
inductive ChatOutcome where
  | apiError
  | emptyContent
  | unparsable
  | parsed (j : InsightsJson)

/-- The `setDefaultInsights` method (enhanced-targeted-scanner.ts lines
519-545): the hard-coded default insights assigned to
`result.aiInsights`. -/
def setDefaultInsights (toolName : String) : AIInsights :=
  { toolOverview := toolName ++ " is an educational technology tool that can help teachers enhance their classroom instruction and student engagement."
    teacherBenefits :=
      ["Streamlines lesson planning and preparation",
       "Provides tools for student assessment",
       "Facilitates classroom collaboration",
       "Offers progress tracking capabilities",
       "Supports diverse learning styles"]
    commonUseCases :=
      ["Daily classroom instruction",
       "Homework and assignments",
       "Student assessment and grading",
       "Parent-teacher communication",
       "Professional development"]
    setupComplexity := "medium"
    bestFeatures :=
      ["Intuitive user interface",
       "Educational content library",
       "Student progress tracking",
       "Collaboration tools",
       "Reporting and analytics"] }

/-- The `generateAIInsights` method (enhanced-targeted-scanner.ts lines
436-517) reduced to the value it assigns to `result.aiInsights`: on a
parsed response it sanitizes each field with its own inline fallback; on
an empty or unparsable content, or when the API call itself throws, it
falls back to `setDefaultInsights`.  The outer try/catch means the method
itself never rejects, so the surrounding deep scan always proceeds. -/
def generateAIInsights (toolName : String) (outcome : ChatOutcome) : AIInsights :=
  match outcome with
  | .apiError => setDefaultInsights toolName
  | .emptyContent => setDefaultInsights toolName
  | .unparsable => setDefaultInsights toolName
  | .parsed j =>
    { toolOverview := j.toolOverview.getD
        (toolName ++ " is an educational tool designed to support teachers and enhance student learning.")
      teacherBenefits := (j.teacherBenefits.map (List.take 5)).getD
        ["Saves time on lesson planning",
         "Enhances student engagement",
         "Provides analytics and insights",
         "Supports differentiated instruction",
         "Easy to integrate with existing curriculum"]
      commonUseCases := (j.commonUseCases.map (List.take 5)).getD
        ["Creating interactive lessons",
         "Assessing student understanding",
         "Facilitating group collaboration",
         "Tracking student progress",
         "Sharing resources with students"]
      setupComplexity := j.setupComplexity.getD "medium"
      bestFeatures := (j.bestFeatures.map (List.take 5)).getD
        ["User-friendly interface",
         "Real-time feedback",
         "Customizable content",
         "Cross-platform compatibility",
         "Comprehensive reporting"] }

/-! ## Concrete fixtures used by witnesses and counterexamples -/

/-- A world in which every external Playwright call succeeds and the
launched browser is connected. -/
def wOk : PWWorld :=
  { launch := .ok ⟨true⟩, newContext := .ok (), newPage := .ok ()
    pageClose := .ok (), contextClose := .ok (), browserClose := .ok ()
    gotoResult := .ok ()
    clickSel := fun _ => .ok (), clickAt := fun _ _ => .ok ()
    mouseMoveAt := fun _ _ => .ok (), title := .ok "Example" }

/-- A controller state with a fully opened, connected session. -/
def sOpen : CtrlState :=
  { browser := some ⟨true⟩, context := some (), page := some ()
    debug := false, mouseX := 0, mouseY := 0 }

/-- The state produced by a successful `openBrowser` from a state with no
browser: debug set, connected browser, fresh context and page. -/
def openedState (s : CtrlState) (debug : Bool) : CtrlState :=
  { s with debug := debug, browser := some ⟨true⟩, context := some (), page := some () }

/-! ## Claim theorems -/

/-- C6: `openBrowser` is idempotent — from a state with no browser, a
successful call opens a connected session, and a second call without an
intervening `closeBrowser` returns success immediately, performs no
external browser action (in particular no second launch), and leaves the
session triple unchanged (only the `debug` flag is re-assigned, as the
source does on every call). -/
theorem c6_openBrowser_idempotent (s : CtrlState) (h1 d1 h2 d2 : Bool)
    (w1 w2 : PWWorld) (hb : s.browser = none)
    (hl : w1.launch = .ok ⟨true⟩) (hc : w1.newContext = .ok ())
    (hp : w1.newPage = .ok ()) :
    openBrowser s h1 d1 w1 =
      (openedState s d1, [.launch, .newContext, .newPage], .ok ()) ∧
    openBrowser (openedState s d1) h2 d2 w2 =
      ({ openedState s d1 with debug := d2 }, [], .ok ()) := by
  constructor
  · simp [openBrowser, openedState, hb, hl, hc, hp]
  · simp [openBrowser, openedState]

/-- Witness for C6 at a concrete initial state and all-success world. -/
theorem c6_openBrowser_idempotent_witness :
    openBrowser CtrlState.initial false false wOk =
      (openedState CtrlState.initial false, [.launch, .newContext, .newPage], .ok ()) ∧
    openBrowser (openedState CtrlState.initial false) false true wOk =
      ({ openedState CtrlState.initial false with debug := true }, [], .ok ()) :=
  c6_openBrowser_idempotent CtrlState.initial false false false true wOk wOk
    rfl rfl rfl rfl

/-- C5: a tools/call request naming a tool outside the registry returns an
error payload whose text identifies the unknown tool name; the controller
state is unchanged and no external action is performed, so the dispatcher
handles the next message from the same state. -/
theorem c5_unknown_tool (other : OtherCases) (w : PWWorld) (s : CtrlState)
    (n : String) (args : Args) (h : n ∉ registryNames) :
    callTool other w s (some (JVal.str n)) args =
      (s, [], { content := [⟨"text", "Unknown tool: " ++ n⟩], isError := true }) := by
  have h1 : ¬ n = "openBrowser" := fun e => h (by rw [e]; decide)
  have h2 : ¬ n = "navigate" := fun e => h (by rw [e]; decide)
  have h3 : ¬ n = "click" := fun e => h (by rw [e]; decide)
  have h4 : ¬ n = "moveMouse" := fun e => h (by rw [e]; decide)
  have h5 : ¬ n = "getPageTitle" := fun e => h (by rw [e]; decide)
  have h6 : ¬ n = "closeBrowser" := fun e => h (by rw [e]; decide)
  simp [callTool, h1, h2, h3, h4, h5, h6, h]

/-- Witness for C5 at a concrete unregistered tool name. -/
theorem c5_unknown_tool_witness :
    callTool (fun _ _ s _ => (s, [], .ok (textResp ""))) wOk sOpen
        (some (JVal.str "frobnicate")) [] =
      (sOpen, [],
       { content := [⟨"text", "Unknown tool: frobnicate"⟩], isError := true }) :=
  c5_unknown_tool (fun _ _ s _ => (s, [], .ok (textResp ""))) wOk sOpen
    "frobnicate" [] (by decide)

/-- C9: whenever the chat-completion call fails, is unavailable, returns
no content, or returns unparsable content, the deep scan's `aiInsights`
field is populated with the hard-coded defaults; `generateAIInsights`
being a total function of the outcome, the failure never aborts the
scan. -/
theorem c9_ai_insights_defaults (toolName : String) (outcome : ChatOutcome)
    (h : outcome = .apiError ∨ outcome = .emptyContent ∨ outcome = .unparsable) :
    generateAIInsights toolName outcome = setDefaultInsights toolName := by
  rcases h with h | h | h <;> subst h <;> rfl

/-- Witness for C9 at a concrete tool name and a failing API call. -/
theorem c9_ai_insights_defaults_witness :
    generateAIInsights "Kahoot" ChatOutcome.apiError = setDefaultInsights "Kahoot" :=
  c9_ai_insights_defaults "Kahoot" ChatOutcome.apiError (Or.inl rfl)

/-- C2 (code bug): a malformed input line whose raw text contains the
substring `"id"` makes the catch block itself rethrow — its id recovery
re-runs `JSON.parse` on the very input that already failed to parse — so
no structured error response is emitted for that line and the rejection
escapes `handleInput` (an unhandled promise rejection, fatal to a
default-configured Node.js process). -/
theorem c2_malformed_id_line_crashes (s : Server) (parseMsg : String) :
    handleInput s (.bad parseMsg true) = .crash := rfl

/-- C3 counterexample: calling `getPageTitle` with no browser session does
not surface a "Browser not initialized" error — the internal check's
error is caught and re-wrapped, so the thrown `BrowserError`'s message is
"Failed to get page title". -/
theorem c3_error_text_counterexample :
    (getPageTitle CtrlState.initial wOk).2.2 =
      .error ⟨"Failed to get page title", some "Check if the page is loaded"⟩ ∧
    "Failed to get page title" ≠ "Browser not initialized" :=
  ⟨rfl, by decide⟩

/-- C3 (amended): a page-dependent operation invoked with no active
session throws internally an `Error('Browser not initialized')`, which
the operation's own catch wraps into a typed `BrowserError` whose message
names the failed operation (with a remediation hint) — not the text
"Browser not initialized"; the process does not crash (the error is a
reported value), no external browser action is performed, and all state,
including the recorded mouse position, is unchanged. -/
theorem c3_uninitialized_page_ops (s : CtrlState) (x y : Int) (w : PWWorld)
    (h : isInitialized s = false) :
    getPageTitleBody s w = (s, [], .error "Browser not initialized") ∧
    getPageTitle s w =
      (s, [], .error ⟨"Failed to get page title", some "Check if the page is loaded"⟩) ∧
    moveMouseBody s x y w = (s, [], .error "Browser not initialized") ∧
    moveMouse s x y w =
      (s, [], .error ⟨"Failed to move mouse", some "Check if coordinates are within viewport"⟩) := by
  refine ⟨?_, ?_, ?_, ?_⟩ <;>
    simp [getPageTitle, getPageTitleBody, moveMouse, moveMouseBody, h]

/-- Witness for C3 at the initial (sessionless) state. -/
theorem c3_uninitialized_page_ops_witness :
    getPageTitleBody CtrlState.initial wOk =
      (CtrlState.initial, [], .error "Browser not initialized") ∧
    getPageTitle CtrlState.initial wOk =
      (CtrlState.initial, [],
       .error ⟨"Failed to get page title", some "Check if the page is loaded"⟩) ∧
    moveMouseBody CtrlState.initial 3 4 wOk =
      (CtrlState.initial, [], .error "Browser not initialized") ∧
    moveMouse CtrlState.initial 3 4 wOk =
      (CtrlState.initial, [],
       .error ⟨"Failed to move mouse", some "Check if coordinates are within viewport"⟩) :=
  c3_uninitialized_page_ops CtrlState.initial 3 4 wOk rfl

/-- A world in which closing the page rejects. -/
def wPageCloseFails : PWWorld := { wOk with pageClose := .error "crash" }

/-- C4 counterexample: when tearing down the page fails, `closeBrowser`
does not swallow the error — it throws
`BrowserError('Failed to close browser', ...)` — and does not reset the
session state: the page (and the rest of the triple) is still set. -/
theorem c4_closeBrowser_counterexample :
    closeBrowser sOpen wPageCloseFails =
      (sOpen, [.pageClose],
       .error ⟨"Failed to close browser", some "The browser might have already been closed"⟩) ∧
    sOpen.page ≠ none :=
  ⟨rfl, by simp [sOpen]⟩

/-- C4 (amended): `closeBrowser` tears down the page, then the context,
then the browser, in that order (skipping null components); when every
teardown succeeds it resets the session state to empty — browser,
context and page null and debug cleared (the mouse position is a separate
field and survives); but a teardown error is not swallowed: the first
failure is rethrown as `BrowserError('Failed to close browser', ...)` and
the session state is left exactly as it was. -/
theorem c4_closeBrowser_teardown (s : CtrlState) (w : PWWorld) :
    (w.pageClose = .ok () → w.contextClose = .ok () → w.browserClose = .ok () →
      closeBrowser s w =
        ({ s with browser := none, context := none, page := none, debug := false },
         (if s.page.isSome then [Action.pageClose] else []) ++
           (if s.context.isSome then [Action.contextClose] else []) ++
           (if s.browser.isSome then [Action.browserClose] else []),
         .ok ())) ∧
    (∀ e, s.page = some () → w.pageClose = .error e →
      closeBrowser s w =
        (s, [.pageClose],
         .error ⟨"Failed to close browser", some "The browser might have already been closed"⟩)) := by
  constructor
  · intro hp hc hb
    simp [closeBrowser, hp, hc, hb]
  · intro e hpage hp
    simp [closeBrowser, hpage, hp]

/-- Witness for C4: the success case at a fully open session with an
all-success world, and the failure case with a failing page close. -/
theorem c4_closeBrowser_teardown_witness :
    closeBrowser sOpen wOk =
      ({ sOpen with browser := none, context := none, page := none, debug := false },
       [Action.pageClose, Action.contextClose, Action.browserClose], .ok ()) ∧
    closeBrowser sOpen wPageCloseFails =
      (sOpen, [.pageClose],
       .error ⟨"Failed to close browser", some "The browser might have already been closed"⟩) :=
  ⟨(c4_closeBrowser_teardown sOpen wOk).1 rfl rfl rfl,
   (c4_closeBrowser_teardown sOpen wPageCloseFails).2 "crash" rfl rfl⟩

/-- A fully open session with a recorded mouse position of (5, 7). -/
def sMouse : CtrlState := { sOpen with mouseX := 5, mouseY := 7 }

/-- C7 counterexample: a click request with the selector omitted is not
performed at the last recorded mouse position — the dispatcher's
validation rejects it with "Selector is required" before the controller
is ever invoked: no external action happens and the state (mouse at
(5,7)) is untouched. -/
theorem c7_click_counterexample :
    callTool (fun _ _ s _ => (s, [], .ok (textResp ""))) wOk sMouse
        (some (.str "click")) [] =
      (sMouse, [], { content := [⟨"text", "Selector is required"⟩], isError := true }) :=
  rfl

/-- C7 (amended): when a truthy selector is given, the click request
clicks that element; but a click request without a (truthy) selector is
rejected by the dispatcher with a "Selector is required" error and never
reaches the controller, so the click-at-last-mouse-position behaviour —
which the controller's `click` does implement when called with no
selector — is unreachable through the request path. -/
theorem c7_click_dispatch (other : OtherCases) (w : PWWorld) (s : CtrlState)
    (args : Args) (sel : JVal)
    (hsel : args.get "selector" = some sel) (ht : sel.truthy = true)
    (hi : isInitialized s = true) (hok : w.clickSel sel = .ok ()) :
    callTool other w s (some (.str "click")) args =
      (s, [.pageClick sel], textResp "Click successful") ∧
    (∀ args2 : Args, truthyOpt (args2.get "selector") = false →
      callTool other w s (some (.str "click")) args2 =
        (s, [], { content := [⟨"text", "Selector is required"⟩], isError := true })) ∧
    (w.clickAt s.mouseX s.mouseY = .ok () →
      click s none w = (s, [.mouseClickAt s.mouseX s.mouseY], .ok ())) := by
  have hpage : s.page.isSome = true := by
    simp [isInitialized, Bool.and_eq_true] at hi
    exact hi.2
  refine ⟨?_, ?_, ?_⟩
  · simp [callTool, hsel, truthyOpt, ht, wrapUnit, click, clickBody, hi, hpage, hok]
  · intro args2 h2
    simp [callTool, h2]
  · intro hat
    simp [click, clickBody, hi, hpage, hat]

/-- Witness for C7 at a concrete open session, selector and world. -/
theorem c7_click_dispatch_witness :
    callTool (fun _ _ s _ => (s, [], .ok (textResp ""))) wOk sMouse
        (some (.str "click")) [("selector", .str "#btn")] =
      (sMouse, [.pageClick (.str "#btn")], textResp "Click successful") ∧
    (∀ args2 : Args, truthyOpt (args2.get "selector") = false →
      callTool (fun _ _ s _ => (s, [], .ok (textResp ""))) wOk sMouse
          (some (.str "click")) args2 =
        (sMouse, [], { content := [⟨"text", "Selector is required"⟩], isError := true })) ∧
    (wOk.clickAt sMouse.mouseX sMouse.mouseY = .ok () →
      click sMouse none wOk =
        (sMouse, [.mouseClickAt sMouse.mouseX sMouse.mouseY], .ok ())) :=
  c7_click_dispatch (fun _ _ s _ => (s, [], .ok (textResp ""))) wOk sMouse
    [("selector", .str "#btn")] (.str "#btn") rfl rfl rfl rfl

/-- C8: an input line with no protocol envelope but a truthy bare
`command` is run through the same registered callTool handler, on the
same request value `⟨name, arguments⟩` that a tools/call envelope with
that name and those arguments would produce, and is answered with the
backward-compatibility response: `success` mirroring the handler's
`isError`, plus on error the first content text as the message and the
optional second content text as the suggestion. -/
theorem c8_legacy_command (s : Server) (h : CallReq → ToolResponse)
    (msg : Message) (hasId : Bool) (cv : JVal) (c0 : ContentBlock)
    (rest : List ContentBlock)
    (hh : s.callToolHandler = some h) (hm : msg.method = none)
    (hc : msg.command = some cv) (ht : cv.truthy = true)
    (hcontent : (h ⟨some cv, msg.arguments⟩).content = c0 :: rest) :
    handleInput s (.ok msg hasId) =
      (if (h ⟨some cv, msg.arguments⟩).isError then
         HandleOutcome.emits [.legacy false c0.text (rest.head?.map ContentBlock.text)]
       else HandleOutcome.emits [.legacy true c0.text none]) ∧
    handleInput s (.ok { method := some "tools/call", id := msg.id
                         params := some ⟨some cv, msg.arguments⟩
                         command := none, arguments := none } hasId) =
      .emits [.callResult msg.id (h ⟨some cv, msg.arguments⟩)] := by
  constructor
  · simp only [handleInput, hm, hc, ht, hh]
    simp [hcontent]
  · simp [handleInput, hh]

/-- A demo callTool handler used by witnesses: always answers with one
successful text block. -/
def hDemo : CallReq → ToolResponse := fun _ => textResp "Browser opened successfully"

/-- A demo dispatcher with both handlers registered. -/
def sDemo : Server :=
  { name := "playmcp-browser", version := "1.0.0", capabilities := .obj []
    listToolsHandler := some (.arr []), callToolHandler := some hDemo }

/-- A demo legacy bare-command line. -/
def msgLegacy : Message :=
  { method := none, id := none, params := none
    command := some (.str "openBrowser"), arguments := some [] }

/-- Witness for C8 at the demo dispatcher and a bare `openBrowser`
command. -/
theorem c8_legacy_command_witness :
    handleInput sDemo (.ok msgLegacy false) =
      .emits [.legacy true "Browser opened successfully" none] ∧
    handleInput sDemo (.ok { method := some "tools/call", id := none
                             params := some ⟨some (.str "openBrowser"), some []⟩
                             command := none, arguments := none } false) =
      .emits [.callResult none (hDemo ⟨some (.str "openBrowser"), some []⟩)] := by
  simpa using
    c8_legacy_command sDemo hDemo msgLegacy false (.str "openBrowser")
      ⟨"text", "Browser opened successfully"⟩ [] rfl rfl rfl rfl rfl

/-- Processing a concatenation of line batches concatenates the outcomes:
`handleInput` never changes dispatcher state, so the handling of any line
is independent of the lines processed before it. -/
theorem runLines_append (s : Server) (pre post : List InLine) :
    runLines s (pre ++ post) = runLines s pre ++ runLines s post := by
  induction pre with
  | nil => rfl
  | cons l ls ih => simp [runLines, handleLine, ih]

/-- C10: the dispatcher enforces no handshake gating.  The response to a
line is the same after any history of prior lines (in particular with or
without an earlier initialize); a tools/call line with a registered
handler is answered immediately with the handler's result, and a
tools/list line with the list handler's result — never rejected or
deferred for lack of initialization. -/
theorem c10_no_handshake_gating (s : Server) (pre : List InLine)
    (msg msgL : Message) (hasId hasIdL : Bool) (h : CallReq → ToolResponse)
    (p : MParams) (v : JVal)
    (hh : s.callToolHandler = some h) (hm : msg.method = some "tools/call")
    (hp : msg.params = some p)
    (hl : s.listToolsHandler = some v) (hmL : msgL.method = some "tools/list") :
    runLines s (pre ++ [.ok msg hasId]) =
      runLines s pre ++ [handleInput s (.ok msg hasId)] ∧
    handleInput s (.ok msg hasId) =
      .emits [.callResult msg.id (h ⟨p.name, p.arguments⟩)] ∧
    handleInput s (.ok msgL hasIdL) = .emits [.listResult msgL.id v] := by
  refine ⟨?_, ?_, ?_⟩
  · rw [runLines_append]; rfl
  · simp [handleInput, hm, hh, hp]
  · simp [handleInput, hmL, hl]

/-- A demo initialize line. -/
def lineInit : InLine :=
  .ok { method := some "initialize", id := some (.num 1), params := none
        command := none, arguments := none } true

/-- A demo tools/call line. -/
def msgCall : Message :=
  { method := some "tools/call", id := some (.num 2)
    params := some ⟨some (.str "openBrowser"), some []⟩
    command := none, arguments := none }

/-- A demo tools/list line. -/
def msgList : Message :=
  { method := some "tools/list", id := some (.num 3), params := none
    command := none, arguments := none }

/-- Witness for C10: at the demo dispatcher, a tools/call line after an
initialize line (and the same line with no history) gets the handler's
result. -/
theorem c10_no_handshake_gating_witness :
    runLines sDemo ([lineInit] ++ [.ok msgCall true]) =
      runLines sDemo [lineInit] ++ [handleInput sDemo (.ok msgCall true)] ∧
    handleInput sDemo (.ok msgCall true) =
      .emits [.callResult (some (.num 2))
        (hDemo ⟨some (.str "openBrowser"), some []⟩)] ∧
    handleInput sDemo (.ok msgList true) =
      .emits [.listResult (some (.num 3)) (.arr [])] :=
  c10_no_handshake_gating sDemo [lineInit] msgCall msgList true true hDemo
    ⟨some (.str "openBrowser"), some []⟩ (.arr []) rfl rfl rfl rfl rfl

/-- C1 counterexample: from a chunk carrying two back-to-back
tool-invocation lines, the event loop admits the execution that starts
both handlers and then emits the responses in reverse order — the second
line's handler starts (trace index 1) before the first line's response is
emitted (trace index 3), and the emission order [1, 0] differs from the
arrival order [0, 1]. -/
theorem c1_interleaving_counterexample :
    DExec twoLineChunk [.start 0, .start 1, .emit 1, .emit 0] ⟨[], [], [1, 0]⟩ ∧
    [1, 0] ≠ [0, 1] ∧
    [Ev.start 0, Ev.start 1, Ev.emit 1, Ev.emit 0].indexOf (Ev.start 1) <
      [Ev.start 0, Ev.start 1, Ev.emit 1, Ev.emit 0].indexOf (Ev.emit 0) := by
  refine ⟨?_, by decide, by decide⟩
  exact DExec.step (DStep.start 0 [1] [] [])
    (DExec.step (DStep.start 1 [] [0] [])
      (DExec.step (DStep.finish 1 [0] [] [])
        (DExec.step (DStep.finish 0 [] [] [1]) (DExec.refl _))))

/-- C1 (amended): because `connect` invokes `handleInput` without
awaiting it, processing a chunk of two back-to-back tool-invocation lines
necessarily starts both handlers, in arrival order, as the first two
events — before any response is emitted.  So every emission (index `k` of
the trace) happens with the second handler already started (index 1 < k):
the two invocations are in flight concurrently, and responses follow
handler-completion order, which need not be arrival order. -/
theorem c1_fire_and_forget_dispatch (tr : List Ev) (final : DState) (k i : Nat)
    (hex : DExec twoLineChunk tr final) (hk : tr.get? k = some (.emit i)) :
    tr.get? 0 = some (.start 0) ∧ tr.get? 1 = some (.start 1) ∧ 2 ≤ k := by
  have h0 : twoLineChunk = ⟨[0, 1], [], []⟩ := rfl
  rw [h0] at hex
  cases hex with
  | refl => simp at hk
  | step h1 hrest =>
    cases h1 with
    | start i0 rest inf em =>
      cases hrest with
      | refl =>
        rcases k with _ | n
        · simp at hk
        · simp at hk
      | step h2 hrest2 =>
        cases h2 with
        | start i1 rest2 inf2 em2 =>
          rcases k with _ | _ | n
          · simp at hk
          · simp at hk
          · exact ⟨rfl, rfl, by omega⟩

/-- Witness for C1's amended theorem at a concrete in-order execution. -/
theorem c1_fire_and_forget_dispatch_witness :
    ([Ev.start 0, Ev.start 1, Ev.emit 0, Ev.emit 1].get? 0 = some (Ev.start 0)) ∧
    ([Ev.start 0, Ev.start 1, Ev.emit 0, Ev.emit 1].get? 1 = some (Ev.start 1)) ∧
    2 ≤ 2 :=
  c1_fire_and_forget_dispatch [Ev.start 0, Ev.start 1, Ev.emit 0, Ev.emit 1]
    ⟨[], [], [0, 1]⟩ 2 0
    (DExec.step (DStep.start 0 [1] [] [])
      (DExec.step (DStep.start 1 [] [0] [])
        (DExec.step (DStep.finish 0 [] [1] [])
          (DExec.step (DStep.finish 1 [] [] [0]) (DExec.refl _)))))
    rfl

end ScannerService
